import Mathlib

/-!
Verification of the task-synchronization and local-notification logic of the
diginamic-ionic-tasksmanager application, as described in its design
specification.  The TypeScript sources are shallowly embedded: dates are
integer millisecond timestamps, JS 32-bit truncation is explicit arithmetic
modulo 2 ^ 32, fallible I/O is `Except`, and the effect of the notification
scheduler is a trace of cancel/schedule actions.
-/

namespace TaskManager

/-- Task entity from `Types/Task`: optional string id, label, done flag, and a
due date modelled as an integer millisecond timestamp (`Date.getTime()`). -/
structure Task where
  id : Option String
  label : String
  done : Bool
  date : Int
deriving DecidableEq, Repr

/-- JS 32-bit signed truncation, as performed by `<<` and `& ` on numbers:
reduce modulo 2 ^ 32 into the signed range [-2 ^ 31, 2 ^ 31). -/
def toInt32 (n : Int) : Int :=
  if n % 4294967296 < 2147483648 then n % 4294967296 else n % 4294967296 - 4294967296

/-- One iteration of the loop in `hashId` (TasksList, part_002 lines 106-114):
`hash = (hash << 5) - hash + char; hash = hash & hash`.  `hash << 5` truncates
`hash * 32` to a signed 32-bit integer and `hash & hash` truncates the final
sum again. -/
def hashStep (h : Int) (c : Nat) : Int :=
  toInt32 (toInt32 (h * 32) - h + c)

/-- Rolling hash of a sequence of character codes, starting from 0. -/
def hashIdCodes (codes : List Nat) : Int :=
  codes.foldl hashStep 0

/-- Character codes of the id string as consumed by `charCodeAt`.  Task ids are
ASCII UUIDs, for which UTF-16 code units and code points coincide. -/
def strCodes (s : String) : List Nat :=
  s.data.map Char.toNat

/-- `hashId(uuid)` from the source: 32-bit rolling hash of the id string. -/
def hashId (s : String) : Int :=
  hashIdCodes (strCodes s)

/-- One step of the rolling hash exactly as the specification words it:
`hash = hash * 31 + charCode`, truncated to a 32-bit integer after the step. -/
def specHashStep (h : Int) (c : Nat) : Int :=
  toInt32 (h * 31 + c)

/-- The specification's rolling hash over a code sequence, starting from 0. -/
def specRollingHashCodes (codes : List Nat) : Int :=
  codes.foldl specHashStep 0

/-- The specification's rolling hash of a string id. -/
def specRollingHash (s : String) : Int :=
  specRollingHashCodes (strCodes s)

/-- An observable interaction with the device notification subsystem:
cancellation or scheduling of a one-shot notification by numeric id. -/
inductive NotifyAction where
  | cancel (id : Int)
  | schedule (id : Int)
deriving DecidableEq, Repr

/-- Actions of `scheduleNotification` (part_002 lines 121-138): when `task.id`
is truthy (present and non-empty), cancel any notification with the derived
numeric id, then schedule an immediate one with the same id; otherwise the
`if (task.id)` guard skips everything. -/
def scheduleNotification (task : Task) : List NotifyAction :=
  match task.id with
  | some s =>
    if s = "" then []
    else [NotifyAction.cancel (hashId s), NotifyAction.schedule (hashId s)]
  | none => []

/-- Predicate `isDueSoon` (part_002 lines 63-69): the due date is at most one
hour from `now` and the task is not done.  Note the missing lower bound. -/
def isDueSoon (now : Int) (task : Task) : Bool :=
  decide (task.date ≤ now + 60 * 60 * 1000) && !task.done

/-- Predicate `isOverdue` (part_002 lines 76-79): the due date is at or before
`now` and the task is not done. -/
def isOverdue (now : Int) (task : Task) : Bool :=
  decide (task.date ≤ now) && !task.done

/-- Delay until a task becomes overdue (part_002 lines 145-150). -/
def calculateDelayUntilOverdue (now : Int) (task : Task) : Int :=
  if task.date - now > 0 then task.date - now else 0

/-- Trace of notification actions performed by `overdueNotify` (part_002 lines
156-172).  The immediate branch runs at time `now`; when the due-soon branch
registers its deferred `setTimeout` check, `fireTime` is the instant at which
that timer callback actually runs (at least `calculateDelayUntilOverdue now
task` after `now`), and the callback re-tests overdueness before notifying. -/
def overdueNotifyTrace (now fireTime : Int) (task : Task) : List NotifyAction :=
  if isOverdue now task then
    scheduleNotification task
  else if isDueSoon now task then
    if isOverdue fireTime task then scheduleNotification task else []
  else []

/-- Modelled from the spec: the wire/storage representation of a date field.
The storage and HTTP collaborators (outside this repository) serialize a Date
either as a number or as an ISO-8601 string denoting the same instant, and
`new Date(s)` recovers that instant; an ISO string is therefore modelled by
the instant it denotes. -/
inductive StoredDate where
  | num (t : Int)
  | iso (t : Int)
deriving DecidableEq, Repr

/-- A task as it sits in the backing store or on the wire: same fields as
`Task`, but the date may still be a string. -/
structure StoredTask where
  id : Option String
  label : String
  done : Bool
  date : StoredDate
deriving DecidableEq, Repr

/-- Date coercion performed on load: a string-typed date is replaced by
`new Date(string)`, a numeric one is kept. -/
def coerceDate : StoredDate → Int
  | StoredDate.num t => t
  | StoredDate.iso t => t

/-- The per-task coercion loop in `fetchTasks` and `fetchLocalTasks`. -/
def coerceTask (st : StoredTask) : Task :=
  { id := st.id, label := st.label, done := st.done, date := coerceDate st.date }

/-- Serialization of a task performed by `storage.set` in `pushLocalTasks`:
the date field is written out as the ISO string of its instant. -/
def serializeTask (t : Task) : StoredTask :=
  { id := t.id, label := t.label, done := t.done, date := StoredDate.iso t.date }

/-- Value of `+a.done` in the sort comparator. -/
def doneBit (b : Bool) : Int :=
  if b then 1 else 0

/-- The sort comparator of `fetchTasks`/`fetchLocalTasks` (TasksCrudService
lines 54-63 and 105-114): first compare done status, then due date. -/
def taskCompare (a b : Task) : Int :=
  if doneBit a.done - doneBit b.done ≠ 0 then doneBit a.done - doneBit b.done
  else a.date - b.date

/-- Ordering relation induced by the comparator: `a` sorts no later than `b`.
`Array.prototype.sort` with a consistent comparator returns a permutation of
its input that is pairwise ordered by this relation; it is modelled here by
insertion sort. -/
def taskLe (a b : Task) : Prop :=
  taskCompare a b ≤ 0

instance : DecidableRel taskLe :=
  fun a b => inferInstanceAs (Decidable (taskCompare a b ≤ 0))

/-- The `tasks.sort(comparator)` call shared by both load operations. -/
def jsSortTasks (l : List Task) : List Task :=
  List.insertionSort taskLe l

/-- Successful result of `fetchTasks` (TasksCrudService lines 36-79) on a
response body `raw`: coerce every date, then sort. -/
def fetchTasksOk (raw : List StoredTask) : List Task :=
  jsSortTasks (raw.map coerceTask)

/-- Successful result of `fetchLocalTasks` (TasksCrudService lines 85-131)
given the value under the `"tasks"` storage key: a missing value yields the
empty collection (`if (!response) return []`), otherwise coerce and sort. -/
def fetchLocalOk : Option (List StoredTask) → List Task
  | none => []
  | some stored => jsSortTasks (stored.map coerceTask)

/-- `fetchLocalTasks` as seen by a subscriber, taking the settled result of
`storage.get("tasks")`: a rejected read surfaces the error, a resolved one
yields the loaded collection. -/
def fetchLocalTasks (getResult : Except String (Option (List StoredTask))) :
    Except String (List Task) :=
  match getResult with
  | Except.error e => Except.error e
  | Except.ok store => Except.ok (fetchLocalOk store)

/-- `pushLocalTasks` (TasksCrudService lines 138-155): `storage.set("tasks",
tasks)` overwrites the stored collection with the serialized tasks. -/
def pushLocalTasks (tasks : List Task) : Option (List StoredTask) :=
  some (tasks.map serializeTask)

theorem coerce_serialize (t : Task) : coerceTask (serializeTask t) = t := rfl

/-- rxjs `retry(count)` as used by every client operation: `f i` is the settled
result of the i-th subscription of the source observable (one network or
storage request each).  On an error the source is resubscribed while retries
remain.  Returns the final result together with the number of attempts made. -/
def retrySubscribe (f : Nat → Except String α) : Nat → Nat → Except String α × Nat
  | i, 0 => (f i, 1)
  | i, r + 1 =>
    match f i with
    | Except.ok a => (Except.ok a, 1)
    | Except.error _ =>
      let p := retrySubscribe f (i + 1) r
      (p.1, p.2 + 1)

/-- The `.pipe(retry(3), catchError(...))` tail shared by all six operations of
TasksCrudService: run with 3 retries, and map any remaining error to the
operation's terminal failure message. -/
def runOp (f : Nat → Except String α) (failMsg : String) : Except String α × Nat :=
  match retrySubscribe f 0 3 with
  | (Except.ok a, n) => (Except.ok a, n)
  | (Except.error _, n) => (Except.error failMsg, n)

/-- Whether a settled result is an error. -/
def isErr : Except String α → Bool
  | Except.error _ => true
  | Except.ok _ => false

/-- `fetchTasks` (TasksCrudService lines 36-79): each attempt is one `fetch` of
the task list; a successful body is coerced and sorted, and failures are
retried then mapped to the terminal message. -/
def fetchTasksOp (f : Nat → Except String (List StoredTask)) :
    Except String (List Task) × Nat :=
  runOp (fun i => (f i).map fetchTasksOk) "Failed to fetch tasks after 3 attempts"

/-- `createTask` (TasksCrudService lines 162-189): each attempt is one POST
returning the created task; same retry and terminal-failure shape. -/
def createTaskOp (f : Nat → Except String Task) : Except String Task × Nat :=
  runOp f "Failed to create task after 3 attempts"

/-- State owned by the TaskList controller: the in-memory collection and the
content of the `"tasks"` key in local storage. -/
structure ControllerState where
  tasks : List Task
  store : Option (List StoredTask)
deriving DecidableEq, Repr

/-- The `updatedTasks` computed at the top of `handleSave` (identical in both
component variants): editing merges the new field values over the task with
the matching id (`{...task, ...newTask}` with `newTask.id = editingTask.id`
assigned first), creation appends the new task with the freshly generated
id. -/
def updatedTasksOf (tasks : List Task) (editing : Option Task) (newTask : Task)
    (freshId : String) : List Task :=
  match editing with
  | some editingTask =>
    tasks.map fun t =>
      if t.id = editingTask.id then { newTask with id := editingTask.id } else t
  | none => tasks ++ [{ newTask with id := some freshId }]

/-- `handleSave` of the part_002 TasksList (lines 200-235): set the in-memory
collection optimistically, then push.  The subscriber's `error` callback only
alerts; `loadTasks()` is wired to `complete`, which rxjs fires only when the
push succeeds.  `pushFails` says whether the push fails terminally (all retry
attempts fail). -/
def handleSave_part002 (st : ControllerState) (editing : Option Task)
    (newTask : Task) (freshId : String) (pushFails : Bool) : ControllerState :=
  let updatedTasks := updatedTasksOf st.tasks editing newTask freshId
  if pushFails then
    { tasks := updatedTasks, store := st.store }
  else
    { tasks := fetchLocalOk (pushLocalTasks updatedTasks),
      store := pushLocalTasks updatedTasks }

/-- `handleSave` of IonicTaskManager/TasksList.tsx (lines 82-111): set the
in-memory collection optimistically, then push; on a terminal push failure the
`error` callback alerts and calls `loadTasks()`, reloading from the store. -/
def handleSave_tsx (st : ControllerState) (editing : Option Task)
    (newTask : Task) (freshId : String) (pushFails : Bool) : ControllerState :=
  let updatedTasks := updatedTasksOf st.tasks editing newTask freshId
  if pushFails then
    { tasks := fetchLocalOk st.store, store := st.store }
  else
    { tasks := updatedTasks, store := pushLocalTasks updatedTasks }

/-- The `do id = uuidv4() while (existingIDs.includes(id))` loop of
`generateUniqueID`: `gen i` is the i-th uuid drawn, `fuel` bounds the number
of draws modelled, and the result is the first draw not contained in
`existingIDs` (or `none` when fuel runs out before a fresh draw). -/
def generateUniqueIDFrom (gen : Nat → String) (existingIDs : List (Option String)) :
    Nat → Nat → Option String
  | _, 0 => none
  | i, fuel + 1 =>
    if existingIDs.contains (some (gen i)) then
      generateUniqueIDFrom gen existingIDs (i + 1) fuel
    else some (gen i)

/-- `generateUniqueID(existingIDs)` from both `handleSave` variants, starting
from the first draw. -/
def generateUniqueID (gen : Nat → String) (existingIDs : List (Option String))
    (fuel : Nat) : Option String :=
  generateUniqueIDFrom gen existingIDs 0 fuel

theorem toInt32_congr {a b : Int} (h : a % 4294967296 = b % 4294967296) :
    toInt32 a = toInt32 b := by
  unfold toInt32
  rw [h]

theorem toInt32_add_left (a b : Int) : toInt32 (toInt32 a + b) = toInt32 (a + b) := by
  apply toInt32_congr
  unfold toInt32
  split_ifs <;> omega

theorem hashStep_eq_specHashStep (h : Int) (c : Nat) : hashStep h c = specHashStep h c := by
  unfold hashStep specHashStep
  have e1 : toInt32 (h * 32) - h + (c : Int) = toInt32 (h * 32) + ((c : Int) - h) := by
    ring
  rw [e1, toInt32_add_left]
  apply toInt32_congr
  have e2 : h * 32 + ((c : Int) - h) = h * 31 + (c : Int) := by
    ring
  rw [e2]

theorem hashIdCodes_eq (codes : List Nat) : hashIdCodes codes = specRollingHashCodes codes := by
  unfold hashIdCodes specRollingHashCodes
  rw [show hashStep = specHashStep from funext fun h => funext fun c => hashStep_eq_specHashStep h c]

/-- C6: for every string id, `hashId` computes exactly the rolling hash
`hash = hash * 31 + charCode` over the id's characters in order, truncated to
a 32-bit integer after every step. -/
theorem C6_hashId_eq_spec_rolling_hash (s : String) : hashId s = specRollingHash s :=
  hashIdCodes_eq (strCodes s)

/-- C8: when nothing is stored under the `"tasks"` key, `fetchLocalTasks`
returns the empty collection rather than an error. -/
theorem C8_empty_store_loads_empty :
    fetchLocalTasks (Except.ok none) = Except.ok [] := rfl

/-- C4: a task whose done flag is true gets no notification from
`overdueNotify`, whatever its due date, neither immediately nor when the
deferred due-soon check would fire. -/
theorem C4_done_never_notified (now fireTime : Int) (task : Task)
    (h : task.done = true) : overdueNotifyTrace now fireTime task = [] := by
  simp [overdueNotifyTrace, isOverdue, isDueSoon, h]

theorem C4_witness :
    (⟨some "a", "t", true, 0⟩ : Task).done = true ∧
      overdueNotifyTrace 0 0 ⟨some "a", "t", true, 0⟩ = [] :=
  ⟨rfl, C4_done_never_notified 0 0 ⟨some "a", "t", true, 0⟩ rfl⟩

/-- C10: every overdue task is also due soon, because `isDueSoon` has no lower
time bound; only the if/else ordering in `overdueNotify` separates the two
branches. -/
theorem C10_overdue_implies_dueSoon (now : Int) (task : Task)
    (h : isOverdue now task = true) : isDueSoon now task = true := by
  simp only [isOverdue, Bool.and_eq_true, decide_eq_true_eq] at h
  simp only [isDueSoon, Bool.and_eq_true, decide_eq_true_eq]
  exact ⟨by omega, h.2⟩

theorem C10_witness :
    isOverdue 0 ⟨some "a", "t", false, 0⟩ = true ∧
      isDueSoon 0 ⟨some "a", "t", false, 0⟩ = true :=
  ⟨by decide, C10_overdue_implies_dueSoon 0 ⟨some "a", "t", false, 0⟩ (by decide)⟩

/-- C1 as stated is false on the code: a task that is overdue and not done but
whose id is the empty string is skipped by the `if (task.id)` guard of
`scheduleNotification`, so nothing is cancelled or scheduled. -/
theorem C1_counterexample :
    (⟨some "", "p", false, 0⟩ : Task).date ≤ 0 ∧
      (⟨some "", "p", false, 0⟩ : Task).done = false ∧
      overdueNotifyTrace 0 0 ⟨some "", "p", false, 0⟩ ≠
        [NotifyAction.cancel (hashId ""), NotifyAction.schedule (hashId "")] := by
  refine ⟨le_refl 0, rfl, ?_⟩
  decide

/-- C1 amended: for every task with a present, non-empty id whose due date is
at or before `now` and whose done flag is false, `overdueNotify` cancels any
notification with the derived numeric id and then schedules an immediate one
with that id. -/
theorem C1_overdue_notifies (now fireTime : Int) (task : Task) (s : String)
    (hid : task.id = some s) (hs : s ≠ "") (hdate : task.date ≤ now)
    (hdone : task.done = false) :
    overdueNotifyTrace now fireTime task =
      [NotifyAction.cancel (hashId s), NotifyAction.schedule (hashId s)] := by
  have hov : isOverdue now task = true := by
    simp [isOverdue, hdone, hdate]
  simp [overdueNotifyTrace, hov, scheduleNotification, hid, hs]

theorem C1_witness :
    overdueNotifyTrace 0 0 ⟨some "a", "p", false, 0⟩ =
      [NotifyAction.cancel (hashId "a"), NotifyAction.schedule (hashId "a")] :=
  C1_overdue_notifies 0 0 ⟨some "a", "p", false, 0⟩ "a" rfl (by decide) (le_refl 0) rfl

theorem taskLe_total (a b : Task) : taskLe a b ∨ taskLe b a := by
  obtain ⟨ia, la, da, ta⟩ := a
  obtain ⟨ib, lb, db, tb⟩ := b
  cases da <;> cases db <;> simp_all [taskLe, taskCompare, doneBit] <;> omega

theorem taskLe_trans {a b c : Task} (hab : taskLe a b) (hbc : taskLe b c) : taskLe a c := by
  obtain ⟨ia, la, da, ta⟩ := a
  obtain ⟨ib, lb, db, tb⟩ := b
  obtain ⟨ic, lc, dc, tc⟩ := c
  cases da <;> cases db <;> cases dc <;>
    simp_all [taskLe, taskCompare, doneBit] <;> omega

instance : IsTotal Task taskLe := ⟨taskLe_total⟩

instance : IsTrans Task taskLe := ⟨fun _ _ _ => taskLe_trans⟩

theorem taskLe_pair {a b : Task} (h : taskLe a b) :
    (a.done ≠ b.done → a.done = false) ∧ (a.done = b.done → a.date ≤ b.date) := by
  obtain ⟨ia, la, da, ta⟩ := a
  obtain ⟨ib, lb, db, tb⟩ := b
  cases da <;> cases db <;> simp_all [taskLe, taskCompare, doneBit]

theorem jsSortTasks_pairwise (l : List Task) :
    List.Pairwise
      (fun a b => (a.done ≠ b.done → a.done = false) ∧ (a.done = b.done → a.date ≤ b.date))
      (jsSortTasks l) :=
  List.Pairwise.imp (fun h => taskLe_pair h) (List.sorted_insertionSort taskLe l)

/-- C2: in any collection returned by `fetchTasks` or `fetchLocalTasks`, for
any earlier task A and later task B, if their done flags differ then A is the
not-done one, and if their done flags agree then A's due date is no later than
B's. -/
theorem C2_loaded_collections_sorted (raw : List StoredTask)
    (store : Option (List StoredTask)) :
    List.Pairwise
        (fun a b => (a.done ≠ b.done → a.done = false) ∧ (a.done = b.done → a.date ≤ b.date))
        (fetchTasksOk raw) ∧
      List.Pairwise
        (fun a b => (a.done ≠ b.done → a.done = false) ∧ (a.done = b.done → a.date ≤ b.date))
        (fetchLocalOk store) := by
  constructor
  · exact jsSortTasks_pairwise (raw.map coerceTask)
  · cases store with
    | none => simp [fetchLocalOk]
    | some stored => exact jsSortTasks_pairwise (stored.map coerceTask)

/-- C9: pushing any collection to local storage and loading it back yields a
permutation of the original tasks — the same set of tasks, every date
denoting the original instant, reordered only by the sort applied on load. -/
theorem C9_local_roundtrip_perm (tasks : List Task) :
    List.Perm (fetchLocalOk (pushLocalTasks tasks)) tasks := by
  show List.Perm (jsSortTasks ((tasks.map serializeTask).map coerceTask)) tasks
  rw [List.map_map,
    show coerceTask ∘ serializeTask = id from funext fun t => coerce_serialize t,
    List.map_id]
  exact List.perm_insertionSort taskLe tasks

theorem retrySubscribe_allFail (f : Nat → Except String α) (r : Nat) :
    ∀ i, (∀ j, j ≤ i + r → isErr (f j) = true) →
      retrySubscribe f i r = (f (i + r), r + 1) := by
  induction r with
  | zero =>
    intro i h
    simp [retrySubscribe]
  | succ r ih =>
    intro i h
    have hi : isErr (f i) = true := h i (by omega)
    cases hf : f i with
    | ok a => rw [hf] at hi; simp [isErr] at hi
    | error e =>
      have ihr := ih (i + 1) (fun j hj => h j (by omega))
      have harith : i + 1 + r = i + (r + 1) := by omega
      rw [harith] at ihr
      simp [retrySubscribe, hf, ihr]

/-- C3 as stated is false on the code: rxjs `retry(3)` makes up to 3 retries
in addition to the initial subscription.  A `fetchTasks` whose every request
fails makes 4 attempts, not at most 3, and a `fetchTasks` that fails on its
first 3 attempts still makes a 4th one, which can succeed instead of surfacing
a terminal error. -/
theorem C3_counterexample :
    (fetchTasksOp (fun _ => Except.error "network")).2 = 4 ∧
      ¬ (fetchTasksOp (fun _ => Except.error "network")).2 ≤ 3 ∧
      (fetchTasksOp (fun i => if i < 3 then Except.error "network" else Except.ok [])).1 =
        Except.ok [] := by
  refine ⟨rfl, by decide, rfl⟩

/-- C3 amended: when every attempt of an operation fails, the retry pipeline
shared by all six client operations performs exactly 4 attempts in total (the
initial subscription plus 3 retries) and then surfaces the operation's
terminal failure message. -/
theorem C3_retry_exhausts_four_attempts (f : Nat → Except String α) (msg : String)
    (hfail : ∀ i, i < 4 → isErr (f i) = true) :
    (runOp f msg).2 = 4 ∧ (runOp f msg).1 = Except.error msg := by
  have hall := retrySubscribe_allFail f 3 0 (fun j hj => hfail j (by omega))
  norm_num at hall
  have h3 : isErr (f 3) = true := hfail 3 (by omega)
  cases hf : f 3 with
  | ok a => rw [hf] at h3; simp [isErr] at h3
  | error e =>
    rw [hf] at hall
    simp [runOp, hall]

theorem C3_witness :
    (runOp (fun _ => (Except.error "transport" : Except String Nat)) "terminal").2 = 4 ∧
      (runOp (fun _ => (Except.error "transport" : Except String Nat)) "terminal").1 =
        Except.error "terminal" :=
  C3_retry_exhausts_four_attempts (fun _ => Except.error "transport") "terminal"
    (fun _ _ => rfl)

/-- C5 as stated is false on the part_002 TasksList: its `handleSave` wires
`loadTasks()` to the subscriber's `complete` callback, which rxjs does not
fire on error, so a terminally failed push leaves the optimistic in-memory
collection in place while the store is unchanged — a concrete failed create
leaves memory holding the new task although a subsequent load returns []. -/
theorem C5_counterexample :
    (handleSave_part002 ⟨[], none⟩ none ⟨none, "rent", false, 0⟩ "a" true).tasks ≠
      fetchLocalOk (handleSave_part002 ⟨[], none⟩ none ⟨none, "rent", false, 0⟩ "a" true).store := by
  decide

/-- C5 amended: in the IonicTaskManager TasksList.tsx variant a terminally
failed push alerts and reloads, so the in-memory collection equals exactly
what a subsequent load returns; in the part_002 variant a terminally failed
push only alerts, the store keeps its previous content and the in-memory
collection keeps the optimistic change. -/
theorem C5_save_failure_behavior (st : ControllerState) (editing : Option Task)
    (newTask : Task) (freshId : String) :
    (handleSave_tsx st editing newTask freshId true).tasks =
        fetchLocalOk (handleSave_tsx st editing newTask freshId true).store ∧
      (handleSave_part002 st editing newTask freshId true).tasks =
        updatedTasksOf st.tasks editing newTask freshId ∧
      (handleSave_part002 st editing newTask freshId true).store = st.store :=
  ⟨rfl, rfl, rfl⟩

theorem generateUniqueIDFrom_fresh (gen : Nat → String) (existingIDs : List (Option String)) :
    ∀ fuel i id, generateUniqueIDFrom gen existingIDs i fuel = some id →
      existingIDs.contains (some id) = false := by
  intro fuel
  induction fuel with
  | zero =>
    intro i id h
    simp [generateUniqueIDFrom] at h
  | succ fuel ih =>
    intro i id h
    unfold generateUniqueIDFrom at h
    split at h
    · exact ih (i + 1) id h
    · rename_i hc
      cases h
      simp only [Bool.not_eq_true] at hc
      exact hc

/-- C7: whatever the pre-existing id set (including the empty one), whenever
`generateUniqueID` returns an id, that id is not contained in — and hence not
a member of — the existing ids. -/
theorem C7_generateUniqueID_fresh (gen : Nat → String)
    (existingIDs : List (Option String)) (fuel : Nat) (id : String)
    (h : generateUniqueID gen existingIDs fuel = some id) :
    existingIDs.contains (some id) = false ∧ some id ∉ existingIDs := by
  have hc := generateUniqueIDFrom_fresh gen existingIDs fuel 0 id h
  refine ⟨hc, fun hmem => ?_⟩
  have ht : existingIDs.contains (some id) = true := List.elem_eq_true_of_mem hmem
  rw [ht] at hc
  cases hc

theorem C7_witness :
    [some "taken", none].contains (some "fresh") = false ∧
      some "fresh" ∉ [some "taken", none] :=
  C7_generateUniqueID_fresh (fun _ => "fresh") [some "taken", none] 1 "fresh" rfl

end TaskManager
